import Mathlib

/-!
Shallow embedding of the civix-backend HTTP handlers (Express + MongoDB) and
proofs about the claims on its specification.

Conventions of the embedding:
* Machine state is explicit: each handler is a pure function from its request
  data and the database value to a `(HTTP status, new state)` pair (plus a
  payload where a claim needs it).  An error branch returns the untouched state.
* `Date` values are modelled as natural numbers (`now` is passed explicitly).
* JavaScript `undefined`/missing values are modelled with `Option`; a field or
  request value that JavaScript treats as falsy-empty (`''`) is modelled as
  `none` where the code only tests truthiness.
* MongoDB `updateOne` updates the first matching document, modelled by
  `updateFirst`; `$push` appends at the end of the array; `findOne`/`find?`
  returns the first match.
-/

namespace Civix

/-- A timeline entry as pushed by the handlers
(`{ status, message, updatedBy, updatedByRole, date }`). -/
structure TimelineEntry where
  status : String
  message : String
  updatedBy : String
  updatedByRole : String
  date : Nat
deriving DecidableEq

/-- An issue document, with the fields that the modelled handlers read or
write.  `assignedStaff` keeps the assigned staff member's email
(`assignedStaff.email` in the JavaScript object, `none` for `null`). -/
structure Issue where
  title : String
  category : String
  location : String
  userEmail : String
  userName : String
  status : String
  priority : String
  upvotes : Nat
  upvotedBy : List String
  assignedStaff : Option String
  createdAt : Nat
  updatedAt : Nat
  boostedAt : Option Nat
  rejectedReason : Option String
  rejectedAt : Option Nat
  timeline : List TimelineEntry
deriving DecidableEq

/-- The `newIssue` object built by `POST /issues`: client-supplied content
fields plus server-controlled `status`/`priority`/`upvotes`/`upvotedBy`/
`assignedStaff`/timeline initialisation. -/
def newIssue (now : Nat) (userEmail userName title category location : String) : Issue :=
  { title := title
    category := category
    location := location
    userEmail := userEmail
    userName := userName
    status := "pending"
    priority := "normal"
    upvotes := 0
    upvotedBy := []
    assignedStaff := none
    createdAt := now
    updatedAt := now
    boostedAt := none
    rejectedReason := none
    rejectedAt := none
    timeline := [⟨"pending", "Issue reported by " ++ userName, userEmail, "citizen", now⟩] }

/-- The `validTransitions` table of `PATCH /staff/issues/:id/status`. -/
def validTransitions (s : String) : List String :=
  if s = "pending" then ["in-progress"]
  else if s = "in-progress" then ["working", "resolved"]
  else if s = "working" then ["resolved"]
  else if s = "resolved" then ["closed"]
  else []

/-- `PATCH /staff/issues/:id/status`, the per-issue logic after the `findOne`:
assignment check (403), transition check (400), then `$set` of
`status`/`updatedAt` and `$push` of the timeline entry.  The increment of the
staff member's `resolvedIssuesCount` touches the users collection, not the
issue document, and is not part of this per-issue function. -/
def staffUpdateStatus (now : Nat) (staffEmail status : String) (message : Option String)
    (issue : Issue) : Nat × Issue :=
  if issue.assignedStaff ≠ some staffEmail then (403, issue)
  else if status ∉ validTransitions issue.status then (400, issue)
  else
    (200, { issue with
      status := status
      updatedAt := now
      timeline := issue.timeline ++
        [⟨status, message.getD ("Status changed to " ++ status), staffEmail, "staff", now⟩] })

/-- `PATCH /admin/issues/:id/reject`, the per-issue logic after the `findOne`:
only a `pending` issue may be rejected (400 otherwise); on success the status
becomes `rejected` and a timeline entry is pushed. -/
def adminReject (now : Nat) (adminEmail : String) (reason : Option String)
    (issue : Issue) : Nat × Issue :=
  if issue.status ≠ "pending" then (400, issue)
  else
    (200, { issue with
      status := "rejected"
      rejectedReason := reason
      rejectedAt := some now
      updatedAt := now
      timeline := issue.timeline ++
        [⟨"rejected",
          "Issue rejected by admin. Reason: " ++ reason.getD "No reason provided",
          adminEmail, "admin", now⟩] })

/-- `PATCH /admin/issues/:id/assign`, the per-issue logic after the `findOne`:
an already assigned issue is refused (400); otherwise `assignedStaff` is set
and a timeline entry pushed. -/
def assignStaff (now : Nat) (adminEmail staffEmail staffName : String)
    (issue : Issue) : Nat × Issue :=
  if issue.assignedStaff.isSome then (400, issue)
  else
    (200, { issue with
      assignedStaff := some staffEmail
      updatedAt := now
      timeline := issue.timeline ++
        [⟨"assigned", "Issue assigned to staff: " ++ staffName, adminEmail, "admin", now⟩] })

/-- The boost update applied by the payment handlers
(`$set priority: 'high', boostedAt` and `$push` of a `boosted` entry). -/
def boostIssue (now : Nat) (userEmail : String) (issue : Issue) : Issue :=
  { issue with
    priority := "high"
    boostedAt := some now
    timeline := issue.timeline ++
      [⟨"boosted", "Issue priority boosted to high", userEmail, "citizen", now⟩] }

/-- `POST /issues/:id/upvote`, the per-issue logic after the `findOne`:
repeat voters get 400, the owner gets 403, otherwise `upvotes` is `$inc`-ed
and the voter `$push`-ed onto `upvotedBy`. -/
def upvoteIssue (voter : String) (issue : Issue) : Nat × Issue :=
  if voter ∈ issue.upvotedBy then (400, issue)
  else if issue.userEmail = voter then (403, issue)
  else (200, { issue with upvotes := issue.upvotes + 1, upvotedBy := issue.upvotedBy ++ [voter] })

/-- `PATCH /issues/:id` restricted to the fields present in the `Issue`
structure: owner check (403), pending check (400), then `$set` of the
non-protected content fields and `updatedAt`.  (The field-generic version of
this handler is `editIssueDoc` below.) -/
def citizenEdit (now : Nat) (userEmail : String)
    (title category location : Option String) (issue : Issue) : Nat × Issue :=
  if issue.userEmail ≠ userEmail then (403, issue)
  else if issue.status ≠ "pending" then (400, issue)
  else
    (200, { issue with
      title := title.getD issue.title
      category := category.getD issue.category
      location := location.getD issue.location
      updatedAt := now })

/-- One evolution step of a single issue document through the issue-mutating
endpoints (including their failure branches, which leave the issue as is). -/
inductive IssueStep : Issue → Issue → Prop where
  | staff (now : Nat) (staffEmail status : String) (message : Option String) (i : Issue) :
      IssueStep i (staffUpdateStatus now staffEmail status message i).2
  | reject (now : Nat) (adminEmail : String) (reason : Option String) (i : Issue) :
      IssueStep i (adminReject now adminEmail reason i).2
  | assign (now : Nat) (adminEmail staffEmail staffName : String) (i : Issue) :
      IssueStep i (assignStaff now adminEmail staffEmail staffName i).2
  | boost (now : Nat) (userEmail : String) (i : Issue) :
      IssueStep i (boostIssue now userEmail i)
  | upvote (voter : String) (i : Issue) :
      IssueStep i (upvoteIssue voter i).2
  | edit (now : Nat) (userEmail : String) (title category location : Option String) (i : Issue) :
      IssueStep i (citizenEdit now userEmail title category location i).2

/-- An issue reachable from a freshly created issue through the modelled
endpoints. -/
def ReachableIssue (i : Issue) : Prop :=
  ∃ now userEmail userName title category location,
    Relation.ReflTransGen IssueStep
      (newIssue now userEmail userName title category location) i

/-- The statuses promised by the state machine. -/
def statusSet : List String :=
  ["pending", "in-progress", "working", "resolved", "closed", "rejected"]

/-- The staff transitions the claim enumerates, as (from, to) pairs. -/
def allowedStaffTransitions : List (String × String) :=
  [("pending", "in-progress"), ("in-progress", "working"), ("in-progress", "resolved"),
   ("working", "resolved"), ("resolved", "closed")]

theorem mem_validTransitions_iff {s st : String} :
    st ∈ validTransitions s ↔ (s, st) ∈ allowedStaffTransitions := by
  constructor
  · intro h
    unfold validTransitions at h
    split at h <;> [skip; split at h] <;> [skip; skip; split at h] <;>
      [skip; skip; skip; split at h] <;> simp_all [allowedStaffTransitions]
  · intro h
    simp only [allowedStaffTransitions, List.mem_cons, List.not_mem_nil, or_false,
      Prod.mk.injEq] at h
    unfold validTransitions
    rcases h with ⟨rfl, rfl⟩ | ⟨rfl, rfl⟩ | ⟨rfl, rfl⟩ | ⟨rfl, rfl⟩ | ⟨rfl, rfl⟩ <;> simp

theorem target_mem_statusSet {s st : String} (h : st ∈ validTransitions s) :
    st ∈ statusSet := by
  rw [mem_validTransitions_iff] at h
  simp only [allowedStaffTransitions, List.mem_cons, List.not_mem_nil, or_false,
    Prod.mk.injEq] at h
  rcases h with ⟨_, rfl⟩ | ⟨_, rfl⟩ | ⟨_, rfl⟩ | ⟨_, rfl⟩ | ⟨_, rfl⟩ <;> simp [statusSet]

theorem IssueStep.status_mem {i j : Issue} (h : IssueStep i j)
    (hi : i.status ∈ statusSet) : j.status ∈ statusSet := by
  cases h with
  | staff now staffEmail status message =>
      unfold staffUpdateStatus
      split
      · exact hi
      · split
        · exact hi
        · rename_i hmem
          rw [not_not] at hmem
          simpa using target_mem_statusSet hmem
  | reject now adminEmail reason =>
      unfold adminReject
      split
      · exact hi
      · simp [statusSet]
  | assign now adminEmail staffEmail staffName =>
      unfold assignStaff
      split <;> simpa using hi
  | boost now userEmail =>
      simpa [boostIssue] using hi
  | upvote voter =>
      unfold upvoteIssue
      split
      · exact hi
      · split <;> simpa using hi
  | edit now userEmail title category location =>
      unfold citizenEdit
      split
      · exact hi
      · split <;> simpa using hi

theorem reachable_status_mem {i : Issue} (h : ReachableIssue i) : i.status ∈ statusSet := by
  obtain ⟨now, ue, un, t, c, l, hgen⟩ := h
  induction hgen with
  | refl => simp [newIssue, statusSet]
  | tail _ hstep ih => exact hstep.status_mem ih

/-- C1: staff status updates succeed exactly for the transitions
pending→in-progress, in-progress→working, in-progress→resolved,
working→resolved and resolved→closed; an admin reject succeeds exactly on a
pending issue; any other requested transition gets HTTP 400 and leaves the
issue document unchanged; consequently every issue reachable from a freshly
created one has status among pending, in-progress, working, resolved, closed,
rejected. -/
theorem C1_status_state_machine :
    (∀ now staffEmail status message issue, issue.assignedStaff = some staffEmail →
      ((staffUpdateStatus now staffEmail status message issue).1 = 200 ↔
        (issue.status, status) ∈ allowedStaffTransitions)) ∧
    (∀ now staffEmail status message issue, issue.assignedStaff = some staffEmail →
      (staffUpdateStatus now staffEmail status message issue).1 ≠ 200 →
      (staffUpdateStatus now staffEmail status message issue).1 = 400 ∧
      (staffUpdateStatus now staffEmail status message issue).2 = issue) ∧
    (∀ now adminEmail reason issue,
      ((adminReject now adminEmail reason issue).1 = 200 ↔ issue.status = "pending")) ∧
    (∀ now adminEmail reason issue,
      (adminReject now adminEmail reason issue).1 ≠ 200 →
      (adminReject now adminEmail reason issue).1 = 400 ∧
      (adminReject now adminEmail reason issue).2 = issue) ∧
    (∀ issue, ReachableIssue issue → issue.status ∈ statusSet) := by
  refine ⟨?_, ?_, ?_, ?_, fun _ h => reachable_status_mem h⟩
  · intro now staffEmail status message issue hassigned
    unfold staffUpdateStatus
    rw [if_neg (by simp [hassigned])]
    split <;> rename_i hmem
    · simpa [mem_validTransitions_iff] using hmem
    · rw [not_not] at hmem
      simpa [mem_validTransitions_iff] using hmem
  · intro now staffEmail status message issue hassigned hne
    unfold staffUpdateStatus at hne ⊢
    rw [if_neg (by simp [hassigned])] at hne ⊢
    split <;> simp_all
  · intro now adminEmail reason issue
    unfold adminReject
    split <;> simp_all
  · intro now adminEmail reason issue hne
    unfold adminReject at hne ⊢
    split <;> simp_all

/-- A concrete issue used by witnesses: a fresh issue assigned to `staff@x`. -/
def issueW : Issue :=
  (assignStaff 1 "admin@x" "staff@x" "Staff X" (newIssue 0 "cit@x" "Cit" "t" "c" "l")).2

theorem C1_status_state_machine_witness :
    (staffUpdateStatus 2 "staff@x" "in-progress" none issueW).1 = 200 ∧
    ((staffUpdateStatus 2 "staff@x" "closed" none issueW).1 = 400 ∧
      (staffUpdateStatus 2 "staff@x" "closed" none issueW).2 = issueW) ∧
    (adminReject 2 "admin@x" none issueW).1 = 200 ∧
    issueW.status ∈ statusSet := by
  refine ⟨?_, ?_, ?_, ?_⟩
  · exact (C1_status_state_machine.1 2 "staff@x" "in-progress" none issueW
      (by decide)).mpr (by decide)
  · exact C1_status_state_machine.2.1 2 "staff@x" "closed" none issueW (by decide) (by decide)
  · exact (C1_status_state_machine.2.2.1 2 "admin@x" none issueW).mpr (by decide)
  · exact C1_status_state_machine.2.2.2.2 issueW ⟨0, "cit@x", "Cit", "t", "c", "l",
      Relation.ReflTransGen.tail Relation.ReflTransGen.refl
        (IssueStep.assign 1 "admin@x" "staff@x" "Staff X" _)⟩

/-- The invariant claimed for the upvote data of an issue. -/
def UpvoteInv (i : Issue) : Prop :=
  i.upvotes = i.upvotedBy.length ∧ i.upvotedBy.Nodup ∧ i.userEmail ∉ i.upvotedBy

theorem IssueStep.upvoteInv {i j : Issue} (h : IssueStep i j) (hi : UpvoteInv i) :
    UpvoteInv j := by
  obtain ⟨hlen, hnodup, howner⟩ := hi
  cases h with
  | staff now staffEmail status message =>
      unfold staffUpdateStatus
      split
      · exact ⟨hlen, hnodup, howner⟩
      · split
        · exact ⟨hlen, hnodup, howner⟩
        · exact ⟨hlen, hnodup, howner⟩
  | reject now adminEmail reason =>
      unfold adminReject
      split
      · exact ⟨hlen, hnodup, howner⟩
      · exact ⟨hlen, hnodup, howner⟩
  | assign now adminEmail staffEmail staffName =>
      unfold assignStaff
      split
      · exact ⟨hlen, hnodup, howner⟩
      · exact ⟨hlen, hnodup, howner⟩
  | boost now userEmail =>
      exact ⟨hlen, hnodup, howner⟩
  | upvote voter =>
      unfold upvoteIssue
      split <;> rename_i hmem
      · exact ⟨hlen, hnodup, howner⟩
      · split <;> rename_i hown
        · exact ⟨hlen, hnodup, howner⟩
        · refine ⟨?_, ?_, ?_⟩
          · simpa using hlen
          · simpa [List.nodup_append, hnodup] using hmem
          · simp only [List.mem_append, List.mem_singleton]
            rintro (h | h)
            · exact howner h
            · exact hown h
  | edit now userEmail title category location =>
      unfold citizenEdit
      split
      · exact ⟨hlen, hnodup, howner⟩
      · split
        · exact ⟨hlen, hnodup, howner⟩
        · exact ⟨hlen, hnodup, howner⟩

theorem reachable_upvoteInv {i : Issue} (h : ReachableIssue i) : UpvoteInv i := by
  obtain ⟨now, ue, un, t, c, l, hgen⟩ := h
  induction hgen with
  | refl => exact ⟨rfl, List.nodup_nil, by simp [newIssue]⟩
  | tail _ hstep ih => exact hstep.upvoteInv ih

/-- C8: for issues created and evolved only through the modelled endpoints,
`upvotes` equals the length of `upvotedBy`, `upvotedBy` has no duplicates and
never contains the owner; creation initialises `upvotes := 0` and
`upvotedBy := []`; an upvote request is rejected with 400 for a repeat voter,
with 403 for the owner, and otherwise increments `upvotes` while appending the
voter. -/
theorem C8_upvote_invariant :
    (∀ i, ReachableIssue i →
      i.upvotes = i.upvotedBy.length ∧ i.upvotedBy.Nodup ∧ i.userEmail ∉ i.upvotedBy) ∧
    (∀ now ue un t c l, (newIssue now ue un t c l).upvotes = 0 ∧
      (newIssue now ue un t c l).upvotedBy = []) ∧
    (∀ voter i, voter ∈ i.upvotedBy → upvoteIssue voter i = (400, i)) ∧
    (∀ voter i, voter ∉ i.upvotedBy → i.userEmail = voter → upvoteIssue voter i = (403, i)) ∧
    (∀ voter i, voter ∉ i.upvotedBy → i.userEmail ≠ voter →
      upvoteIssue voter i =
        (200, { i with upvotes := i.upvotes + 1, upvotedBy := i.upvotedBy ++ [voter] })) := by
  refine ⟨fun i h => reachable_upvoteInv h, fun now ue un t c l => ⟨rfl, rfl⟩, ?_, ?_, ?_⟩
  · intro voter i hmem
    unfold upvoteIssue
    rw [if_pos hmem]
  · intro voter i hmem hown
    unfold upvoteIssue
    rw [if_neg hmem, if_pos hown]
  · intro voter i hmem hown
    unfold upvoteIssue
    rw [if_neg hmem, if_neg hown]

theorem C8_upvote_invariant_witness :
    ((upvoteIssue "v@x" issueW).2.upvotes = (upvoteIssue "v@x" issueW).2.upvotedBy.length ∧
      (upvoteIssue "v@x" issueW).2.upvotedBy.Nodup ∧
      (upvoteIssue "v@x" issueW).2.userEmail ∉ (upvoteIssue "v@x" issueW).2.upvotedBy) ∧
    upvoteIssue "v@x" (upvoteIssue "v@x" issueW).2 = (400, (upvoteIssue "v@x" issueW).2) ∧
    upvoteIssue "cit@x" issueW = (403, issueW) ∧
    upvoteIssue "v@x" issueW =
      (200, { issueW with upvotes := issueW.upvotes + 1,
                          upvotedBy := issueW.upvotedBy ++ ["v@x"] }) := by
  refine ⟨?_, ?_, ?_, ?_⟩
  · exact C8_upvote_invariant.1 (upvoteIssue "v@x" issueW).2
      ⟨0, "cit@x", "Cit", "t", "c", "l",
        Relation.ReflTransGen.tail
          (Relation.ReflTransGen.tail Relation.ReflTransGen.refl
            (IssueStep.assign 1 "admin@x" "staff@x" "Staff X" _))
          (IssueStep.upvote "v@x" _)⟩
  · exact C8_upvote_invariant.2.2.1 "v@x" (upvoteIssue "v@x" issueW).2 (by decide)
  · exact C8_upvote_invariant.2.2.2.1 "cit@x" issueW (by decide) (by decide)
  · exact C8_upvote_invariant.2.2.2.2 "v@x" issueW (by decide) (by decide)

/-- A user document with the fields the modelled handlers read or write.
`issueCount` is an `Int` because the delete handler decrements it without a
lower bound. -/
structure User where
  email : String
  name : String
  role : String
  isPremium : Bool
  isBlocked : Bool
  issueCount : Int
  premiumSince : Option Nat
deriving DecidableEq

/-- A payment document as built by the payment handlers.  The JavaScript field
`type` is called `ptype` here (`type` is reserved in Lean). -/
structure Payment where
  userEmail : String
  userName : String
  amount : Nat
  ptype : String
  issueId : Option String
  transactionId : String
  method : String
  status : String
  createdAt : Nat
deriving DecidableEq

/-- The database: the three collections the modelled handlers touch.  Issues
are keyed by their `_id` string. -/
structure DB where
  users : List User
  issues : List (String × Issue)
  payments : List Payment
deriving DecidableEq

/-- MongoDB `updateOne`: update the first document matching the filter. -/
def updateFirst (p : α → Bool) (f : α → α) : List α → List α
  | [] => []
  | a :: l => if p a then f a :: l else a :: updateFirst p f l

/-- `usersCollection.findOne({ email })`. -/
def findUser (db : DB) (email : String) : Option User :=
  db.users.find? (fun u => u.email == email)

/-- `issuesCollection.findOne({ _id })`. -/
def findIssueD (db : DB) (id : String) : Option Issue :=
  (db.issues.find? (fun p => p.1 == id)).map Prod.snd

/-- `GET /issues/:id`: 404 when the document is missing. -/
def getIssue (db : DB) (id : String) : Nat × Option Issue :=
  match findIssueD db id with
  | none => (404, none)
  | some i => (200, some i)

/-- JavaScript `String.prototype.split(' ')` on the character list: splits at
every space, keeping empty segments. -/
def splitOnSpace : List Char → List String
  | [] => [""]
  | c :: rest =>
    match splitOnSpace rest with
    | [] => []
    | s :: ss =>
      if c = ' ' then "" :: s :: ss
      else (String.singleton c ++ s) :: ss

/-- The `verifyToken` middleware: the token is the second word of the
`Authorization` header (`authorization?.split(' ')[1]`); a missing or empty
token gives 401, a token the JWT secret rejects gives 403, otherwise the
handler runs with the decoded user's email.  `verify` is the abstract
`jwt.verify` against the secret. -/
def extractToken (authHeader : Option String) : Option String :=
  match authHeader with
  | none => none
  | some h => (splitOnSpace h.data)[1]?

def withToken (verify : String → Option String) (authHeader : Option String)
    (handler : String → DB → Nat × DB) (db : DB) : Nat × DB :=
  match extractToken authHeader with
  | none => (401, db)
  | some t =>
    if t = "" then (401, db)
    else
      match verify t with
      | none => (403, db)
      | some email => handler email db

/-- The `verifyAdmin` middleware: looks the requester up in the users
collection; missing user gives 404, non-admin role 403. -/
def withAdmin (handler : String → DB → Nat × DB) (email : String) (db : DB) : Nat × DB :=
  match findUser db email with
  | none => (404, db)
  | some u => if u.role ≠ "admin" then (403, db) else handler email db

/-- The response of `POST /issues`: HTTP status plus the `needsPremium` flag
of the quota rejection body. -/
structure CreateResp where
  status : Nat
  needsPremium : Bool
deriving DecidableEq

/-- `POST /issues`: user lookup (404), blocked check (403), free-user quota
check (403 with `needsPremium: true`), then insert of the new issue and
`$inc` of the user's `issueCount`. -/
def createIssue (now : Nat) (userEmail title category location newId : String)
    (db : DB) : CreateResp × DB :=
  match findUser db userEmail with
  | none => (⟨404, false⟩, db)
  | some user =>
    if user.isBlocked then (⟨403, false⟩, db)
    else if ¬ user.isPremium ∧ 3 ≤ user.issueCount then (⟨403, true⟩, db)
    else
      (⟨201, false⟩,
        { db with
          issues := db.issues ++ [(newId, newIssue now userEmail user.name title category location)]
          users := updateFirst (fun u => u.email == userEmail)
            (fun u => { u with issueCount := u.issueCount + 1 }) db.users })

/-- The effect block shared by the payment handlers: a `boost` payment with an
issue id boosts that issue, a `subscription` payment makes the payer premium. -/
def applyPaymentEffects (now : Nat) (userEmail ptype : String) (issueId : Option String)
    (db : DB) : DB :=
  let db1 :=
    match issueId with
    | some iid =>
      if ptype = "boost" then
        let issues' := updateFirst (fun p => p.1 == iid)
          (fun p => (p.1, boostIssue now userEmail p.2)) db.issues
        { db with issues := issues' }
      else db
    | none => db
  if ptype = "subscription" then
    let users' := updateFirst (fun u => u.email == userEmail)
      (fun u => { u with isPremium := true, premiumSince := some now }) db1.users
    { db1 with users := users' }
  else db1

/-- `POST /payments`: user lookup (404); for a boost payment the issue must
exist (404) and belong to the payer (403); then the payment document is
inserted and the boost/subscription effects applied.  An `issueId` that is
JavaScript-falsy (absent or `''`) is modelled as `none`. -/
def postPayment (now : Nat) (userEmail : String) (amount : Nat) (ptype : String)
    (issueId : Option String) (txId : String) (method : Option String)
    (db : DB) : Nat × DB :=
  match findUser db userEmail with
  | none => (404, db)
  | some user =>
    let ownerCheck : Option Nat :=
      match issueId with
      | some iid =>
        if ptype = "boost" then
          match findIssueD db iid with
          | none => some 404
          | some issue => if issue.userEmail ≠ userEmail then some 403 else none
        else none
      | none => none
    match ownerCheck with
    | some c => (c, db)
    | none =>
      let payment : Payment :=
        { userEmail := userEmail
          userName := user.name
          amount := amount
          ptype := ptype
          issueId := issueId
          transactionId := txId
          method := method.getD "stripe"
          status := "completed"
          createdAt := now }
      (201, applyPaymentEffects now userEmail ptype issueId
        { db with payments := db.payments ++ [payment] })

/-- A Stripe checkout session as read back by `POST /payments/verify-payment`:
`customer_email`, `payment_status` and the metadata written at checkout time.
A metadata `issueId` of `''` is JavaScript-falsy and modelled as `none`. -/
structure StripeSession where
  customerEmail : String
  paymentStatus : String
  metaUserEmail : String
  metaUserName : String
  metaType : String
  metaIssueId : Option String
  metaAmount : Nat
deriving DecidableEq

/-- The response of `POST /payments/verify-payment`: HTTP status plus the
payment document returned in `data` (when one is returned). -/
structure VerifyResp where
  status : Nat
  payment : Option Payment
deriving DecidableEq

/-- `POST /payments/verify-payment`: session id required (400), session
retrieved from Stripe (404), session ownership (403), `payment_status` must be
`paid` (400); an already recorded payment (same `transactionId`) is returned
as is with no writes; otherwise the payment is recorded, a subscription makes
the user premium and a boost with an issue id boosts the issue.  `stripe` is
the abstract `stripe.checkout.sessions.retrieve`. -/
def verifyPayment (now : Nat) (userEmail : String) (sessionId : Option String)
    (stripe : String → Option StripeSession) (db : DB) : VerifyResp × DB :=
  match sessionId with
  | none => (⟨400, none⟩, db)
  | some sid =>
    match stripe sid with
    | none => (⟨404, none⟩, db)
    | some session =>
      if session.customerEmail ≠ userEmail ∧ session.metaUserEmail ≠ userEmail then
        (⟨403, none⟩, db)
      else if session.paymentStatus ≠ "paid" then (⟨400, none⟩, db)
      else
        match db.payments.find? (fun p => p.transactionId == sid) with
        | some existing => (⟨200, some existing⟩, db)
        | none =>
          let paymentType :=
            if session.metaType = "premium_subscription" then "subscription"
            else session.metaType
          let payment : Payment :=
            { userEmail := userEmail
              userName := match findUser db userEmail with
                          | some u => u.name
                          | none => session.metaUserName
              amount := session.metaAmount
              ptype := paymentType
              issueId := session.metaIssueId
              transactionId := sid
              method := "stripe"
              status := "completed"
              createdAt := now }
          let db1 := { db with payments := db.payments ++ [payment] }
          let db2 :=
            if paymentType = "subscription" then
              let users' := updateFirst (fun u => u.email == userEmail)
                (fun u => { u with isPremium := true, premiumSince := some now }) db1.users
              { db1 with users := users' }
            else db1
          let db3 :=
            match session.metaIssueId with
            | some iid =>
              if session.metaType = "boost" then
                let issues' := updateFirst (fun p => p.1 == iid)
                  (fun p => (p.1, boostIssue now userEmail p.2)) db2.issues
                { db2 with issues := issues' }
              else db2
            | none => db2
          (⟨200, some payment⟩, db3)

theorem find?_updateFirst (p : α → Bool) (f : α → α) (hf : ∀ a, p a = true → p (f a) = true) :
    ∀ l : List α, (updateFirst p f l).find? p = (l.find? p).map f := by
  intro l
  induction l with
  | nil => simp [updateFirst]
  | cons a l ih =>
    by_cases h : p a
    · rw [updateFirst, if_pos h, List.find?_cons_of_pos _ (hf a h),
        List.find?_cons_of_pos _ h, Option.map_some']
    · rw [updateFirst, if_neg (by simp [h]), List.find?_cons_of_neg _ (by simp [h]),
        List.find?_cons_of_neg _ (by simp [h]), ih]

/-- C6: an authenticated, non-blocked citizen with `isPremium = false` and
`issueCount ≥ 3` gets a 403 with `needsPremium: true` from issue creation and
the database is unchanged; a premium user is never rejected with the quota
response, and (when not blocked) creation succeeds with 201 regardless of
`issueCount`. -/
theorem C6_free_quota :
    (∀ now ue title cat loc nid db u, findUser db ue = some u →
      u.isBlocked = false → u.isPremium = false → 3 ≤ u.issueCount →
      createIssue now ue title cat loc nid db = (⟨403, true⟩, db)) ∧
    (∀ now ue title cat loc nid db u, findUser db ue = some u → u.isPremium = true →
      (createIssue now ue title cat loc nid db).1.needsPremium = false ∧
      (u.isBlocked = false → (createIssue now ue title cat loc nid db).1.status = 201)) := by
  constructor
  · intro now ue title cat loc nid db u hfind hblocked hprem hcount
    unfold createIssue
    rw [hfind]
    simp only [hblocked, Bool.false_eq_true, if_false]
    rw [if_pos ⟨by simp [hprem], hcount⟩]
  · intro now ue title cat loc nid db u hfind hprem
    unfold createIssue
    rw [hfind]
    constructor
    · by_cases hb : u.isBlocked
      · simp [hb]
      · simp [hb, hprem]
    · intro hb
      simp [hb, hprem]

/-- Concrete users and database used by witnesses: a free citizen at the
quota, a premium citizen, an admin, a staff member, and one issue owned by
the free citizen. -/
def citW : User :=
  { email := "cit@x", name := "Cit", role := "citizen", isPremium := false,
    isBlocked := false, issueCount := 3, premiumSince := none }

def premW : User :=
  { email := "prem@x", name := "Prem", role := "citizen", isPremium := true,
    isBlocked := false, issueCount := 7, premiumSince := some 0 }

def adminW : User :=
  { email := "admin@x", name := "Adm", role := "admin", isPremium := false,
    isBlocked := false, issueCount := 0, premiumSince := none }

def staffUserW : User :=
  { email := "staff@x", name := "Staff X", role := "staff", isPremium := false,
    isBlocked := false, issueCount := 0, premiumSince := none }

def dbW : DB :=
  { users := [citW, premW, adminW, staffUserW]
    issues := [("i1", newIssue 0 "cit@x" "Cit" "t" "c" "l")]
    payments := [] }

theorem C6_free_quota_witness :
    createIssue 4 "cit@x" "t2" "c2" "l2" "i2" dbW = (⟨403, true⟩, dbW) ∧
    (createIssue 4 "prem@x" "t2" "c2" "l2" "i2" dbW).1.needsPremium = false ∧
    (createIssue 4 "prem@x" "t2" "c2" "l2" "i2" dbW).1.status = 201 := by
  refine ⟨?_, ?_, ?_⟩
  · exact C6_free_quota.1 4 "cit@x" "t2" "c2" "l2" "i2" dbW citW (by decide) (by decide)
      (by decide) (by decide)
  · exact (C6_free_quota.2 4 "prem@x" "t2" "c2" "l2" "i2" dbW premW (by decide) (by decide)).1
  · exact (C6_free_quota.2 4 "prem@x" "t2" "c2" "l2" "i2" dbW premW (by decide) (by decide)).2
      (by decide)

/-- C7: a request without a bearer token is answered 401, a request whose
token does not verify is answered 403, and on an admin-only route a verified
requester whose user document is not an admin is answered 403; in each case
the handler does not run (the result is the same for every handler) and the
database is unchanged. -/
theorem C7_auth_middleware :
    (∀ verify handler (db : DB) authHeader,
      (extractToken authHeader = none ∨ extractToken authHeader = some "") →
      withToken verify authHeader handler db = (401, db)) ∧
    (∀ verify handler (db : DB) authHeader t, extractToken authHeader = some t → t ≠ "" →
      verify t = none → withToken verify authHeader handler db = (403, db)) ∧
    (∀ verify handler (db : DB) authHeader t email u, extractToken authHeader = some t →
      t ≠ "" → verify t = some email → findUser db email = some u → u.role ≠ "admin" →
      withToken verify authHeader (withAdmin handler) db = (403, db)) := by
  refine ⟨?_, ?_, ?_⟩
  · intro verify handler db authHeader hex
    unfold withToken
    rcases hex with hex | hex <;> rw [hex]
    simp
  · intro verify handler db authHeader t hex ht hv
    unfold withToken
    rw [hex]
    simp only [if_neg ht, hv]
  · intro verify handler db authHeader t email u hex ht hv hfind hrole
    unfold withToken withAdmin
    rw [hex]
    simp only [if_neg ht, hv, hfind, if_pos hrole]

theorem C7_auth_middleware_witness :
    (withToken (fun t => if t = "tok" then some "cit@x" else none) none
      (fun _ db => (200, db)) dbW = (401, dbW)) ∧
    (withToken (fun t => if t = "tok" then some "cit@x" else none) (some "Bearer bad")
      (fun _ db => (200, db)) dbW = (403, dbW)) ∧
    (withToken (fun t => if t = "tok" then some "cit@x" else none) (some "Bearer tok")
      (withAdmin (fun _ db => (200, db))) dbW = (403, dbW)) := by
  refine ⟨?_, ?_, ?_⟩
  · exact C7_auth_middleware.1 _ _ dbW none (Or.inl rfl)
  · exact C7_auth_middleware.2.1 _ _ dbW (some "Bearer bad") "bad" (by decide) (by decide)
      (by decide)
  · exact C7_auth_middleware.2.2 _ _ dbW (some "Bearer tok") "tok" "cit@x" citW (by decide)
      (by decide) (by decide) (by decide) (by decide)

theorem find?_users_premium (l : List User) (ue : String) (now : Nat) :
    (updateFirst (fun u => u.email == ue)
        (fun u => { u with isPremium := true, premiumSince := some now }) l).find?
      (fun u => u.email == ue) =
    (l.find? (fun u => u.email == ue)).map
      (fun u => { u with isPremium := true, premiumSince := some now }) := by
  apply find?_updateFirst
  intro a h
  exact h

theorem find?_issues_boost (l : List (String × Issue)) (iid ue : String) (now : Nat) :
    ((updateFirst (fun p => p.1 == iid)
          (fun p => (p.1, boostIssue now ue p.2)) l).find? (fun p => p.1 == iid)).map
        Prod.snd =
    ((l.find? (fun p => p.1 == iid)).map Prod.snd).map (boostIssue now ue) := by
  have h := find?_updateFirst (fun p : String × Issue => p.1 == iid)
    (fun p => (p.1, boostIssue now ue p.2)) (fun a ha => ha) l
  rw [h, Option.map_map, Option.map_map]
  rfl

theorem postPayment_sub_fst (now : Nat) (ue : String) (amount : Nat)
    (issueId : Option String) (txId : String) (method : Option String) (db : DB) (u : User)
    (hfind : findUser db ue = some u) :
    (postPayment now ue amount "subscription" issueId txId method db).1 = 201 := by
  unfold postPayment
  rw [hfind]
  rcases issueId with _ | iid <;> simp

theorem applyPaymentEffects_users_sub (now : Nat) (ue : String) (issueId : Option String)
    (db : DB) :
    (applyPaymentEffects now ue "subscription" issueId db).users =
      updateFirst (fun u => u.email == ue)
        (fun u => { u with isPremium := true, premiumSince := some now }) db.users := by
  unfold applyPaymentEffects
  rcases issueId with _ | iid <;> simp

theorem applyPaymentEffects_issues_boost (now : Nat) (ue iid : String) (db : DB) :
    (applyPaymentEffects now ue "boost" (some iid) db).issues =
      updateFirst (fun p => p.1 == iid) (fun p => (p.1, boostIssue now ue p.2)) db.issues := by
  unfold applyPaymentEffects
  simp

theorem postPayment_sub_users (now : Nat) (ue : String) (amount : Nat)
    (issueId : Option String) (txId : String) (method : Option String) (db : DB) (u : User)
    (hfind : findUser db ue = some u) :
    (postPayment now ue amount "subscription" issueId txId method db).2.users =
      updateFirst (fun v => v.email == ue)
        (fun v => { v with isPremium := true, premiumSince := some now }) db.users := by
  unfold postPayment
  rw [hfind]
  rcases issueId with _ | iid <;> simp [applyPaymentEffects_users_sub]

theorem postPayment_boost_fst (now : Nat) (ue : String) (amount : Nat) (iid : String)
    (txId : String) (method : Option String) (db : DB) (u : User) (issue : Issue)
    (hfind : findUser db ue = some u) (hissue : findIssueD db iid = some issue)
    (howner : issue.userEmail = ue) :
    (postPayment now ue amount "boost" (some iid) txId method db).1 = 201 := by
  unfold postPayment
  rw [hfind]
  simp [hissue, howner]

theorem postPayment_boost_issues (now : Nat) (ue : String) (amount : Nat) (iid : String)
    (txId : String) (method : Option String) (db : DB) (u : User) (issue : Issue)
    (hfind : findUser db ue = some u) (hissue : findIssueD db iid = some issue)
    (howner : issue.userEmail = ue) :
    (postPayment now ue amount "boost" (some iid) txId method db).2.issues =
      updateFirst (fun p => p.1 == iid) (fun p => (p.1, boostIssue now ue p.2)) db.issues := by
  unfold postPayment
  rw [hfind]
  simp [hissue, howner, applyPaymentEffects_issues_boost]

theorem verifyPayment_fresh_status (now : Nat) (ue sid : String)
    (stripe : String → Option StripeSession) (session : StripeSession) (db : DB)
    (hs : stripe sid = some session)
    (hown : ¬(session.customerEmail ≠ ue ∧ session.metaUserEmail ≠ ue))
    (hpaid : session.paymentStatus = "paid")
    (hex : db.payments.find? (fun p => p.transactionId == sid) = none) :
    (verifyPayment now ue (some sid) stripe db).1.status = 200 := by
  unfold verifyPayment
  simp only [hs]
  rw [if_neg hown, if_neg (show ¬(session.paymentStatus ≠ "paid") by simp [hpaid])]
  simp only [hex]

theorem verifyPayment_sub_users (now : Nat) (ue sid : String)
    (stripe : String → Option StripeSession) (session : StripeSession) (db : DB)
    (hs : stripe sid = some session)
    (hown : ¬(session.customerEmail ≠ ue ∧ session.metaUserEmail ≠ ue))
    (hpaid : session.paymentStatus = "paid")
    (hex : db.payments.find? (fun p => p.transactionId == sid) = none)
    (hmeta : session.metaType = "subscription" ∨ session.metaType = "premium_subscription") :
    (verifyPayment now ue (some sid) stripe db).2.users =
      updateFirst (fun v => v.email == ue)
        (fun v => { v with isPremium := true, premiumSince := some now }) db.users := by
  unfold verifyPayment
  simp only [hs]
  rw [if_neg hown, if_neg (show ¬(session.paymentStatus ≠ "paid") by simp [hpaid])]
  simp only [hex]
  cases hmi : session.metaIssueId <;> rcases hmeta with h | h <;> simp [h, hmi]

theorem verifyPayment_boost_issues (now : Nat) (ue sid : String)
    (stripe : String → Option StripeSession) (session : StripeSession) (db : DB) (iid : String)
    (hs : stripe sid = some session)
    (hown : ¬(session.customerEmail ≠ ue ∧ session.metaUserEmail ≠ ue))
    (hpaid : session.paymentStatus = "paid")
    (hex : db.payments.find? (fun p => p.transactionId == sid) = none)
    (hbt : session.metaType = "boost") (hti : session.metaIssueId = some iid) :
    (verifyPayment now ue (some sid) stripe db).2.issues =
      updateFirst (fun p => p.1 == iid) (fun p => (p.1, boostIssue now ue p.2)) db.issues := by
  unfold verifyPayment
  simp only [hs]
  rw [if_neg hown, if_neg (show ¬(session.paymentStatus ≠ "paid") by simp [hpaid])]
  simp only [hex]
  simp [hbt, hti]

/-- C5: a successfully recorded `subscription` payment makes the payer
premium, and a successfully recorded `boost` payment carrying an issue id
sets that issue's priority to `high` and appends a `boosted` timeline entry —
for the direct `POST /payments` endpoint and for
`POST /payments/verify-payment`. -/
theorem C5_payment_effects :
    (∀ now ue amount issueId txId method db u,
      findUser db ue = some u →
      (postPayment now ue amount "subscription" issueId txId method db).1 = 201 ∧
      findUser (postPayment now ue amount "subscription" issueId txId method db).2 ue =
        some { u with isPremium := true, premiumSince := some now }) ∧
    (∀ now ue amount iid txId method db u issue,
      findUser db ue = some u → findIssueD db iid = some issue → issue.userEmail = ue →
      (postPayment now ue amount "boost" (some iid) txId method db).1 = 201 ∧
      findIssueD (postPayment now ue amount "boost" (some iid) txId method db).2 iid =
        some (boostIssue now ue issue) ∧
      (boostIssue now ue issue).priority = "high" ∧
      (boostIssue now ue issue).timeline =
        issue.timeline ++ [⟨"boosted", "Issue priority boosted to high", ue, "citizen", now⟩]) ∧
    (∀ now ue sid stripe session db u,
      stripe sid = some session → session.customerEmail = ue →
      session.paymentStatus = "paid" →
      db.payments.find? (fun p => p.transactionId == sid) = none →
      (session.metaType = "subscription" ∨ session.metaType = "premium_subscription") →
      findUser db ue = some u →
      (verifyPayment now ue (some sid) stripe db).1.status = 200 ∧
      findUser (verifyPayment now ue (some sid) stripe db).2 ue =
        some { u with isPremium := true, premiumSince := some now }) ∧
    (∀ now ue sid stripe session db issue iid,
      stripe sid = some session → session.customerEmail = ue →
      session.paymentStatus = "paid" →
      db.payments.find? (fun p => p.transactionId == sid) = none →
      session.metaType = "boost" → session.metaIssueId = some iid →
      findIssueD db iid = some issue →
      (verifyPayment now ue (some sid) stripe db).1.status = 200 ∧
      findIssueD (verifyPayment now ue (some sid) stripe db).2 iid =
        some (boostIssue now ue issue)) := by
  refine ⟨?_, ?_, ?_, ?_⟩
  · intro now ue amount issueId txId method db u hfind
    refine ⟨postPayment_sub_fst now ue amount issueId txId method db u hfind, ?_⟩
    show ((postPayment now ue amount "subscription" issueId txId method db).2.users.find?
      (fun v => v.email == ue)) = _
    rw [postPayment_sub_users now ue amount issueId txId method db u hfind,
      find?_users_premium]
    have h : db.users.find? (fun v => v.email == ue) = some u := hfind
    rw [h, Option.map_some']
  · intro now ue amount iid txId method db u issue hfind hissue howner
    refine ⟨postPayment_boost_fst now ue amount iid txId method db u issue hfind hissue howner,
      ?_, rfl, rfl⟩
    show ((postPayment now ue amount "boost" (some iid) txId method db).2.issues.find?
      (fun p => p.1 == iid)).map Prod.snd = _
    rw [postPayment_boost_issues now ue amount iid txId method db u issue hfind hissue howner,
      find?_issues_boost]
    have h : (db.issues.find? (fun p => p.1 == iid)).map Prod.snd = some issue := hissue
    rw [h, Option.map_some']
  · intro now ue sid stripe session db u hs hmail hpaid hex hmeta hfind
    have hown : ¬(session.customerEmail ≠ ue ∧ session.metaUserEmail ≠ ue) := by
      simp [hmail]
    refine ⟨verifyPayment_fresh_status now ue sid stripe session db hs hown hpaid hex, ?_⟩
    show ((verifyPayment now ue (some sid) stripe db).2.users.find?
      (fun v => v.email == ue)) = _
    rw [verifyPayment_sub_users now ue sid stripe session db hs hown hpaid hex hmeta,
      find?_users_premium]
    have h : db.users.find? (fun v => v.email == ue) = some u := hfind
    rw [h, Option.map_some']
  · intro now ue sid stripe session db issue iid hs hmail hpaid hex hbt hti hissue
    have hown : ¬(session.customerEmail ≠ ue ∧ session.metaUserEmail ≠ ue) := by
      simp [hmail]
    refine ⟨verifyPayment_fresh_status now ue sid stripe session db hs hown hpaid hex, ?_⟩
    show ((verifyPayment now ue (some sid) stripe db).2.issues.find?
      (fun p => p.1 == iid)).map Prod.snd = _
    rw [verifyPayment_boost_issues now ue sid stripe session db iid hs hown hpaid hex hbt hti,
      find?_issues_boost]
    have h : (db.issues.find? (fun p => p.1 == iid)).map Prod.snd = some issue := hissue
    rw [h, Option.map_some']

/-- Concrete Stripe sessions and lookup used by witnesses. -/
def sessionSubW : StripeSession :=
  { customerEmail := "cit@x", paymentStatus := "paid", metaUserEmail := "cit@x",
    metaUserName := "Cit", metaType := "subscription", metaIssueId := none, metaAmount := 500 }

def sessionBoostW : StripeSession :=
  { customerEmail := "cit@x", paymentStatus := "paid", metaUserEmail := "cit@x",
    metaUserName := "Cit", metaType := "boost", metaIssueId := some "i1", metaAmount := 100 }

def stripeW : String → Option StripeSession := fun sid =>
  if sid = "sess1" then some sessionSubW
  else if sid = "sess2" then some sessionBoostW
  else none

theorem C5_payment_effects_witness :
    (postPayment 9 "cit@x" 500 "subscription" none "tx1" none dbW).1 = 201 ∧
    findUser (postPayment 9 "cit@x" 500 "subscription" none "tx1" none dbW).2 "cit@x" =
      some { citW with isPremium := true, premiumSince := some 9 } ∧
    findIssueD (postPayment 9 "cit@x" 100 "boost" (some "i1") "tx2" none dbW).2 "i1" =
      some (boostIssue 9 "cit@x" (newIssue 0 "cit@x" "Cit" "t" "c" "l")) ∧
    findUser (verifyPayment 9 "cit@x" (some "sess1") stripeW dbW).2 "cit@x" =
      some { citW with isPremium := true, premiumSince := some 9 } ∧
    findIssueD (verifyPayment 9 "cit@x" (some "sess2") stripeW dbW).2 "i1" =
      some (boostIssue 9 "cit@x" (newIssue 0 "cit@x" "Cit" "t" "c" "l")) := by
  refine ⟨?_, ?_, ?_, ?_, ?_⟩
  · exact (C5_payment_effects.1 9 "cit@x" 500 none "tx1" none dbW citW (by decide)).1
  · exact (C5_payment_effects.1 9 "cit@x" 500 none "tx1" none dbW citW (by decide)).2
  · exact (C5_payment_effects.2.1 9 "cit@x" 100 "i1" "tx2" none dbW citW
      (newIssue 0 "cit@x" "Cit" "t" "c" "l") (by decide) (by decide) (by decide)).2.1
  · exact (C5_payment_effects.2.2.1 9 "cit@x" "sess1" stripeW sessionSubW dbW citW
      (by decide) rfl rfl rfl (Or.inl rfl) (by decide)).2
  · exact (C5_payment_effects.2.2.2 9 "cit@x" "sess2" stripeW sessionBoostW dbW
      (newIssue 0 "cit@x" "Cit" "t" "c" "l") "i1"
      (by decide) rfl rfl rfl rfl rfl (by decide)).2

theorem verifyPayment_existing (now : Nat) (ue sid : String)
    (stripe : String → Option StripeSession) (session : StripeSession) (db : DB) (p : Payment)
    (hs : stripe sid = some session)
    (hown : ¬(session.customerEmail ≠ ue ∧ session.metaUserEmail ≠ ue))
    (hpaid : session.paymentStatus = "paid")
    (hex : db.payments.find? (fun q => q.transactionId == sid) = some p) :
    verifyPayment now ue (some sid) stripe db = (⟨200, some p⟩, db) := by
  unfold verifyPayment
  simp only [hs]
  rw [if_neg hown, if_neg (show ¬(session.paymentStatus ≠ "paid") by simp [hpaid])]
  simp only [hex]

theorem verifyPayment_fresh_payments (now : Nat) (ue sid : String)
    (stripe : String → Option StripeSession) (session : StripeSession) (db : DB)
    (hs : stripe sid = some session)
    (hown : ¬(session.customerEmail ≠ ue ∧ session.metaUserEmail ≠ ue))
    (hpaid : session.paymentStatus = "paid")
    (hex : db.payments.find? (fun q => q.transactionId == sid) = none) :
    ∃ pay : Payment, (verifyPayment now ue (some sid) stripe db).2.payments =
      db.payments ++ [pay] ∧ pay.transactionId = sid := by
  unfold verifyPayment
  simp only [hs]
  rw [if_neg hown, if_neg (show ¬(session.paymentStatus ≠ "paid") by simp [hpaid])]
  simp only [hex]
  refine ⟨{ userEmail := ue,
            userName := match findUser db ue with
                        | some u => u.name
                        | none => session.metaUserName,
            amount := session.metaAmount,
            ptype := if session.metaType = "premium_subscription" then "subscription"
                     else session.metaType,
            issueId := session.metaIssueId,
            transactionId := sid, method := "stripe", status := "completed",
            createdAt := now }, ?_, rfl⟩
  cases hmi : session.metaIssueId <;>
    by_cases hsub : (if session.metaType = "premium_subscription" then "subscription"
      else session.metaType) = "subscription" <;>
    by_cases hbs : session.metaType = "boost" <;>
    simp [hmi, hsub, hbs]

/-- C10: verify-payment is idempotent: when a payment with `transactionId`
equal to the session id is already recorded, the call returns it with success
and writes nothing, and running verify-payment twice with the same session id
leaves the same final state as running it once. -/
theorem C10_verify_payment_idempotent :
    (∀ now ue sid stripe session db p,
      stripe sid = some session →
      ¬(session.customerEmail ≠ ue ∧ session.metaUserEmail ≠ ue) →
      session.paymentStatus = "paid" →
      db.payments.find? (fun q => q.transactionId == sid) = some p →
      verifyPayment now ue (some sid) stripe db = (⟨200, some p⟩, db)) ∧
    (∀ now1 now2 ue sid stripe db,
      (verifyPayment now2 ue sid stripe (verifyPayment now1 ue sid stripe db).2).2 =
        (verifyPayment now1 ue sid stripe db).2) := by
  refine ⟨fun now ue sid stripe session db p hs hown hpaid hex =>
    verifyPayment_existing now ue sid stripe session db p hs hown hpaid hex, ?_⟩
  intro now1 now2 ue sid stripe db
  rcases sid with _ | sid
  · rfl
  cases hs : stripe sid with
  | none =>
      have h1 : verifyPayment now1 ue (some sid) stripe db = (⟨404, none⟩, db) := by
        unfold verifyPayment
        simp only [hs]
      have h2 : verifyPayment now2 ue (some sid) stripe db = (⟨404, none⟩, db) := by
        unfold verifyPayment
        simp only [hs]
      rw [h1, h2]
  | some session =>
      by_cases hown : (session.customerEmail ≠ ue ∧ session.metaUserEmail ≠ ue)
      · have h1 : verifyPayment now1 ue (some sid) stripe db = (⟨403, none⟩, db) := by
          unfold verifyPayment
          simp only [hs]
          rw [if_pos hown]
        have h2 : verifyPayment now2 ue (some sid) stripe db = (⟨403, none⟩, db) := by
          unfold verifyPayment
          simp only [hs]
          rw [if_pos hown]
        rw [h1, h2]
      · by_cases hpaid : session.paymentStatus ≠ "paid"
        · have h1 : verifyPayment now1 ue (some sid) stripe db = (⟨400, none⟩, db) := by
            unfold verifyPayment
            simp only [hs]
            rw [if_neg hown, if_pos hpaid]
          have h2 : verifyPayment now2 ue (some sid) stripe db = (⟨400, none⟩, db) := by
            unfold verifyPayment
            simp only [hs]
            rw [if_neg hown, if_pos hpaid]
          rw [h1, h2]
        · have hpaid' : session.paymentStatus = "paid" := not_not.mp hpaid
          cases hex : db.payments.find? (fun q => q.transactionId == sid) with
          | some p =>
              have h1 := verifyPayment_existing now1 ue sid stripe session db p
                hs hown hpaid' hex
              have h2 := verifyPayment_existing now2 ue sid stripe session db p
                hs hown hpaid' hex
              rw [h1, h2]
          | none =>
              obtain ⟨pay, hpays, htx⟩ := verifyPayment_fresh_payments now1 ue sid stripe
                session db hs hown hpaid' hex
              have hex2 : ((verifyPayment now1 ue (some sid) stripe db).2).payments.find?
                  (fun q => q.transactionId == sid) = some pay := by
                rw [hpays, List.find?_append, hex]
                simp [htx]
              rw [verifyPayment_existing now2 ue sid stripe session _ pay hs hown hpaid' hex2]

/-- A database in which the `sess1` payment is already recorded. -/
def payRecW : Payment :=
  { userEmail := "cit@x", userName := "Cit", amount := 500, ptype := "subscription",
    issueId := none, transactionId := "sess1", method := "stripe", status := "completed",
    createdAt := 7 }

def dbPaidW : DB := { dbW with payments := [payRecW] }

theorem C10_verify_payment_idempotent_witness :
    verifyPayment 10 "cit@x" (some "sess1") stripeW dbPaidW = (⟨200, some payRecW⟩, dbPaidW) ∧
    (verifyPayment 11 "cit@x" (some "sess1") stripeW
        (verifyPayment 10 "cit@x" (some "sess1") stripeW dbW).2).2 =
      (verifyPayment 10 "cit@x" (some "sess1") stripeW dbW).2 := by
  constructor
  · exact C10_verify_payment_idempotent.1 10 "cit@x" "sess1" stripeW sessionSubW dbPaidW
      payRecW (by decide) (by decide) rfl (by decide)
  · exact C10_verify_payment_idempotent.2 10 11 "cit@x" (some "sess1") stripeW dbW

/-- An issue document in its generic JSON view: a partial map from field
names to (string-rendered) values, for the field-generic
`PATCH /issues/:id` handler. -/
def Doc := String → Option String

/-- The six fields `PATCH /issues/:id` deletes from the request body before
the `$set`. -/
def protectedFields : List String :=
  ["userEmail", "status", "priority", "upvotes", "upvotedBy", "assignedStaff"]

/-- The `delete updates.userEmail; ...` block. -/
def stripProtected (body : Doc) : Doc :=
  fun k => if k ∈ protectedFields then none else body k

/-- MongoDB `$set`: fields present in `updates` overwrite, all others stay. -/
def setFields (doc updates : Doc) : Doc :=
  fun k =>
    match updates k with
    | some v => some v
    | none => doc k

/-- `PATCH /issues/:id` on the document level: owner check (403), pending
check (400), strip the protected fields from the body, set `updatedAt`, then
`$set` the remaining body fields. -/
def editIssueDoc (now : Nat) (userEmail : String) (body : Doc) (doc : Doc) : Nat × Doc :=
  if doc "userEmail" ≠ some userEmail then (403, doc)
  else if doc "status" ≠ some "pending" then (400, doc)
  else
    let updates : Doc := fun k =>
      if k = "updatedAt" then some (toString now) else stripProtected body k
    (200, setFields doc updates)

/-- C9: a citizen edit of their own pending issue leaves `userEmail`,
`status`, `priority`, `upvotes`, `upvotedBy` and `assignedStaff` unchanged no
matter what the request body contains; `updatedAt` is written, and any other
field is overwritten exactly when the body carries it. -/
theorem C9_edit_protected_fields (now : Nat) (userEmail : String) (body doc : Doc)
    (howner : doc "userEmail" = some userEmail)
    (hpending : doc "status" = some "pending") :
    (editIssueDoc now userEmail body doc).1 = 200 ∧
    (∀ k ∈ protectedFields, (editIssueDoc now userEmail body doc).2 k = doc k) ∧
    (editIssueDoc now userEmail body doc).2 "updatedAt" = some (toString now) ∧
    (∀ k, k ∉ protectedFields → k ≠ "updatedAt" →
      (editIssueDoc now userEmail body doc).2 k =
        match body k with
        | some v => some v
        | none => doc k) := by
  have hgo : editIssueDoc now userEmail body doc =
      (200, setFields doc (fun k =>
        if k = "updatedAt" then some (toString now) else stripProtected body k)) := by
    unfold editIssueDoc
    rw [if_neg (by simp [howner]), if_neg (by simp [hpending])]
  have hgo2 : (editIssueDoc now userEmail body doc).2 =
      setFields doc (fun k =>
        if k = "updatedAt" then some (toString now) else stripProtected body k) := by
    rw [hgo]
  refine ⟨by rw [hgo], ?_, ?_, ?_⟩
  · intro k hk
    have hne : k ≠ "updatedAt" := by
      simp only [protectedFields, List.mem_cons, List.not_mem_nil, or_false] at hk
      rcases hk with rfl | rfl | rfl | rfl | rfl | rfl <;> simp
    rw [hgo2]
    simp only [setFields, stripProtected]
    rw [if_neg hne, if_pos hk]
  · rw [hgo2]
    simp [setFields]
  · intro k hk hne
    rw [hgo2]
    simp only [setFields, stripProtected]
    rw [if_neg hne, if_neg hk]

/-- Concrete document and body for the C9 witness: the body tries to change
`status` and `priority` and legitimately changes `title`. -/
def docW : Doc := fun k =>
  if k = "userEmail" then some "cit@x"
  else if k = "status" then some "pending"
  else if k = "priority" then some "normal"
  else if k = "title" then some "old title"
  else none

def bodyW : Doc := fun k =>
  if k = "status" then some "resolved"
  else if k = "priority" then some "high"
  else if k = "title" then some "new title"
  else none

theorem C9_edit_protected_fields_witness :
    (editIssueDoc 6 "cit@x" bodyW docW).1 = 200 ∧
    (editIssueDoc 6 "cit@x" bodyW docW).2 "status" = some "pending" ∧
    (editIssueDoc 6 "cit@x" bodyW docW).2 "priority" = some "normal" ∧
    (editIssueDoc 6 "cit@x" bodyW docW).2 "updatedAt" = some (toString 6) ∧
    (editIssueDoc 6 "cit@x" bodyW docW).2 "title" = some "new title" := by
  have h := C9_edit_protected_fields 6 "cit@x" bodyW docW (by decide) (by decide)
  refine ⟨h.1, ?_, ?_, h.2.2.1, ?_⟩
  · exact (h.2.1 "status" (by simp [protectedFields])).trans (by decide)
  · exact (h.2.1 "priority" (by simp [protectedFields])).trans (by decide)
  · exact (h.2.2.2 "title" (by simp [protectedFields]) (by simp)).trans (by decide)

/-- C3 counterexample: a request that does not complete successfully whose
error response is not 500 — `GET /issues/:id` on a missing issue answers 404,
and `PATCH /staff/issues/:id/status` on an invalid transition answers 400. -/
theorem C3_counterexample :
    (getIssue { users := [], issues := [], payments := [] } "missing").1 = 404 ∧
    (staffUpdateStatus 2 "staff@x" "closed" none issueW).1 = 400 ∧
    (404 : Nat) ≠ 500 ∧ (400 : Nat) ≠ 500 := by
  refine ⟨rfl, by decide, by decide, by decide⟩

/-- C3 (amended): uncaught exceptions are answered 500 by the catch-all
`try/catch` blocks, but the routes' own failure branches return 400, 401, 403
or 404 — never 500.  In the shallow embedding (which has no throwing
operations) every modelled handler's status is its success code or one of
400/403/404; the middleware 401/403 cases are covered by the C7 theorem. -/
theorem C3_error_statuses :
    (∀ db id, (getIssue db id).1 = 200 ∨ (getIssue db id).1 = 404) ∧
    (∀ now se st msg i, (staffUpdateStatus now se st msg i).1 = 200 ∨
      (staffUpdateStatus now se st msg i).1 = 400 ∨
      (staffUpdateStatus now se st msg i).1 = 403) ∧
    (∀ now ae r i, (adminReject now ae r i).1 = 200 ∨ (adminReject now ae r i).1 = 400) ∧
    (∀ now ae se sn i, (assignStaff now ae se sn i).1 = 200 ∨
      (assignStaff now ae se sn i).1 = 400) ∧
    (∀ v i, (upvoteIssue v i).1 = 200 ∨ (upvoteIssue v i).1 = 400 ∨
      (upvoteIssue v i).1 = 403) ∧
    (∀ now ue b d, (editIssueDoc now ue b d).1 = 200 ∨ (editIssueDoc now ue b d).1 = 400 ∨
      (editIssueDoc now ue b d).1 = 403) ∧
    (∀ now ue t c l nid db, (createIssue now ue t c l nid db).1.status = 201 ∨
      (createIssue now ue t c l nid db).1.status = 403 ∨
      (createIssue now ue t c l nid db).1.status = 404) ∧
    (∀ now ue a pt iid tx m db, (postPayment now ue a pt iid tx m db).1 = 201 ∨
      (postPayment now ue a pt iid tx m db).1 = 403 ∨
      (postPayment now ue a pt iid tx m db).1 = 404) ∧
    (∀ now ue sid stripe db, (verifyPayment now ue sid stripe db).1.status = 200 ∨
      (verifyPayment now ue sid stripe db).1.status = 400 ∨
      (verifyPayment now ue sid stripe db).1.status = 403 ∨
      (verifyPayment now ue sid stripe db).1.status = 404) := by
  refine ⟨?_, ?_, ?_, ?_, ?_, ?_, ?_, ?_, ?_⟩
  · intro db id
    cases h : findIssueD db id <;> simp [getIssue, h]
  · intro now se st msg i
    unfold staffUpdateStatus
    split
    · simp
    · split <;> simp
  · intro now ae r i
    unfold adminReject
    split <;> simp
  · intro now ae se sn i
    unfold assignStaff
    split <;> simp
  · intro v i
    unfold upvoteIssue
    split
    · simp
    · split <;> simp
  · intro now ue b d
    unfold editIssueDoc
    split
    · simp
    · split <;> simp
  · intro now ue t c l nid db
    unfold createIssue
    cases h : findUser db ue with
    | none => simp
    | some u =>
      by_cases hb : u.isBlocked <;>
        by_cases hq : (u.isPremium = false ∧ 3 ≤ u.issueCount) <;> simp [hb, hq]
  · intro now ue a pt iid tx m db
    unfold postPayment
    cases hfu : findUser db ue with
    | none => simp
    | some u =>
      rcases iid with _ | i
      · simp
      · by_cases hb : pt = "boost"
        · cases hfi : findIssueD db i with
          | none => simp [hb, hfi]
          | some iss =>
            by_cases ho : iss.userEmail ≠ ue
            · simp [hb, hfi, ho]
            · simp [hb, hfi, ho]
        · simp [hb]
  · intro now ue sid stripe db
    rcases sid with _ | sid
    · simp [verifyPayment]
    cases hs : stripe sid with
    | none => simp [verifyPayment, hs]
    | some session =>
      unfold verifyPayment
      simp only [hs]
      by_cases hown : (session.customerEmail ≠ ue ∧ session.metaUserEmail ≠ ue)
      · rw [if_pos hown]
        simp
      · rw [if_neg hown]
        by_cases hpaid : session.paymentStatus ≠ "paid"
        · rw [if_pos hpaid]
          simp
        · rw [if_neg hpaid]
          cases hex : db.payments.find? (fun q => q.transactionId == sid) <;> simp [hex]

/-- The numeric sort key the aggregation pipeline adds (`$switch` on
`priority`: high 3, normal 2, low 1, default 2). -/
def priorityOrder (p : String) : Nat :=
  if p = "high" then 3 else if p = "normal" then 2 else if p = "low" then 1 else 2

/-- Character-list prefix test. -/
def prefixMatch : List Char → List Char → Bool
  | [], _ => true
  | _ :: _, [] => false
  | a :: as, b :: bs => a == b && prefixMatch as bs

/-- Character-list substring test. -/
def containsSub (pat : List Char) : List Char → Bool
  | [] => pat.isEmpty
  | c :: t => prefixMatch pat (c :: t) || containsSub pat t

/-- The `$regex` / `$options: 'i'` search match, modelled as case-insensitive
substring containment (exact for regex-metacharacter-free search strings). -/
def regexMatchI (pat s : String) : Bool :=
  containsSub pat.toLower.data s.toLower.data

/-- The query parameters of `GET /issues`; an empty string is the absent
filter. -/
structure ListQuery where
  search : String
  status : String
  priority : String
  category : String
deriving DecidableEq

/-- The `query` object of `GET /issues`: `$or` regex search over title,
location and category, plus exact `status`/`priority`/`category` filters. -/
def matchesQuery (q : ListQuery) (i : Issue) : Bool :=
  (q.search == "" || (regexMatchI q.search i.title || regexMatchI q.search i.location ||
    regexMatchI q.search i.category)) &&
  (q.status == "" || i.status == q.status) &&
  (q.priority == "" || i.priority == q.priority) &&
  (q.category == "" || i.category == q.category)

/-- The `$sort { priorityOrder: -1, createdAt: -1 }` order of the aggregation
pipeline: `a` may be placed before `b`. -/
def aggLE (a b : Issue) : Prop :=
  priorityOrder b.priority < priorityOrder a.priority ∨
    (priorityOrder a.priority = priorityOrder b.priority ∧ b.createdAt ≤ a.createdAt)

instance : DecidableRel aggLE := fun a b =>
  inferInstanceAs (Decidable (priorityOrder b.priority < priorityOrder a.priority ∨
    (priorityOrder a.priority = priorityOrder b.priority ∧ b.createdAt ≤ a.createdAt)))

instance : IsTotal Issue aggLE :=
  ⟨fun a b => by
    unfold aggLE
    rcases Nat.lt_trichotomy (priorityOrder b.priority) (priorityOrder a.priority)
      with h | h | h
    · exact Or.inl (Or.inl h)
    · rcases Nat.le_total b.createdAt a.createdAt with h' | h'
      · exact Or.inl (Or.inr ⟨h.symm, h'⟩)
      · exact Or.inr (Or.inr ⟨h, h'⟩)
    · exact Or.inr (Or.inl h)⟩

instance : IsTrans Issue aggLE :=
  ⟨fun a b c hab hbc => by
    unfold aggLE at *
    rcases hab with h1 | ⟨h1, h1'⟩ <;> rcases hbc with h2 | ⟨h2, h2'⟩
    · exact Or.inl (by omega)
    · exact Or.inl (by omega)
    · exact Or.inl (by omega)
    · exact Or.inr ⟨by omega, le_trans h2' h1'⟩⟩

/-- The `.sort({ priority: -1, createdAt: -1 })` order of the find variant:
MongoDB compares the string field `priority` itself, descending
(lexicographically by code point over the character sequence), then
`createdAt` descending. -/
def findLE (a b : Issue) : Prop :=
  b.priority.data < a.priority.data ∨
    (b.priority = a.priority ∧ b.createdAt ≤ a.createdAt)

instance : DecidableRel findLE := fun a b =>
  inferInstanceAs (Decidable (b.priority.data < a.priority.data ∨
    (b.priority = a.priority ∧ b.createdAt ≤ a.createdAt)))

/-- The payload of the `GET /issues` response. -/
structure ListResult where
  issues : List Issue
  currentPage : Nat
  totalPages : Nat
  totalIssues : Nat
deriving DecidableEq

/-- `GET /issues`, aggregation-pipeline version: `$match` the query,
`$addFields priorityOrder`, `$sort` by it then `createdAt` descending,
`$skip (page-1)*limit`, `$limit limit`; `totalPages` is
`Math.ceil(total / limit)` and `totalIssues` is `countDocuments(query)`. -/
def getIssuesAgg (db : List Issue) (q : ListQuery) (page limit : Nat) : ListResult :=
  let matched := db.filter (matchesQuery q)
  let sorted := List.insertionSort aggLE matched
  { issues := (sorted.drop ((page - 1) * limit)).take limit
    currentPage := page
    totalPages := (matched.length + limit - 1) / limit
    totalIssues := matched.length }

/-- `GET /issues`, `find().sort({ priority: -1, createdAt: -1 })` version. -/
def getIssuesFind (db : List Issue) (q : ListQuery) (page limit : Nat) : ListResult :=
  let matched := db.filter (matchesQuery q)
  let sorted := List.insertionSort findLE matched
  { issues := (sorted.drop ((page - 1) * limit)).take limit
    currentPage := page
    totalPages := (matched.length + limit - 1) / limit
    totalIssues := matched.length }

theorem priorityOrder_le_three (p : String) : priorityOrder p ≤ 3 := by
  unfold priorityOrder
  split
  · omega
  · split
    · omega
    · split <;> omega

theorem priorityOrder_eq_three_iff (p : String) : priorityOrder p = 3 ↔ p = "high" := by
  unfold priorityOrder
  split <;> rename_i h
  · simp [h]
  · split
    · simp [h]
    · split <;> simp [h]

theorem aggLE_imp {a b : Issue} (h : aggLE a b) :
    (b.priority = "high" → a.priority = "high") ∧
    (priorityOrder a.priority = priorityOrder b.priority → b.createdAt ≤ a.createdAt) := by
  constructor
  · intro hb
    have h3 : priorityOrder b.priority = 3 := (priorityOrder_eq_three_iff _).mpr hb
    have hle := priorityOrder_le_three a.priority
    rcases h with h | ⟨h, _⟩
    · exact absurd rfl (by omega : ¬(3 : Nat) = 3)
    · exact (priorityOrder_eq_three_iff _).mp (by omega)
  · intro heq
    rcases h with h | ⟨_, h'⟩
    · omega
    · exact h'

theorem ceil_bounds (n l : Nat) (hl : 1 ≤ l) :
    n ≤ (n + l - 1) / l * l ∧ (n + l - 1) / l * l < n + l := by
  have hdm := Nat.div_add_mod (n + l - 1) l
  have hlt : (n + l - 1) % l < l := Nat.mod_lt _ (by omega)
  rw [Nat.mul_comm] at hdm
  generalize hql : (n + l - 1) / l * l = t at hdm ⊢
  omega

/-- C2: on the aggregation-pipeline listing, for any filters and any
`page ≥ 1`, `limit ≥ 1`: every `high`-priority matching issue is ordered
before every non-`high` matching issue, issues of equal priority rank are
ordered by `createdAt` descending, the returned page is the
`[(page-1)*limit, (page-1)*limit + limit)` slice of that order, and
`totalPages` is the ceiling of `totalIssues / limit` (characterised by the
two inequalities and by `Nat` ceiling division). -/
theorem C2_listing_pagination (db : List Issue) (q : ListQuery) (page limit : Nat)
    (hlimit : 1 ≤ limit) :
    (List.insertionSort aggLE (db.filter (matchesQuery q))).Pairwise
      (fun a b => (b.priority = "high" → a.priority = "high") ∧
        (priorityOrder a.priority = priorityOrder b.priority →
          b.createdAt ≤ a.createdAt)) ∧
    (getIssuesAgg db q page limit).issues =
      ((List.insertionSort aggLE (db.filter (matchesQuery q))).drop
        ((page - 1) * limit)).take limit ∧
    (getIssuesAgg db q page limit).totalIssues = (db.filter (matchesQuery q)).length ∧
    (getIssuesAgg db q page limit).totalIssues ≤
      (getIssuesAgg db q page limit).totalPages * limit ∧
    (getIssuesAgg db q page limit).totalPages * limit <
      (getIssuesAgg db q page limit).totalIssues + limit ∧
    (getIssuesAgg db q page limit).totalPages =
      (getIssuesAgg db q page limit).totalIssues ⌈/⌉ limit := by
  refine ⟨?_, rfl, rfl, ?_, ?_, ?_⟩
  · exact List.Pairwise.imp (fun h => aggLE_imp h)
      (List.sorted_insertionSort aggLE (db.filter (matchesQuery q)))
  · exact (ceil_bounds (db.filter (matchesQuery q)).length limit hlimit).1
  · exact (ceil_bounds (db.filter (matchesQuery q)).length limit hlimit).2
  · exact (Nat.ceilDiv_eq_add_pred_div _ _).symm

/-- Concrete issues for the listing witnesses: one boosted (`high`) issue and
one `normal` issue with a later `createdAt`. -/
def issueHighW : Issue := { newIssue 2 "a@x" "A" "tH" "c" "l" with priority := "high" }

def issueNormalW : Issue := newIssue 1 "b@x" "B" "tN" "c" "l"

def queryW : ListQuery := ⟨"", "", "", ""⟩

theorem C2_listing_pagination_witness :
    (getIssuesAgg [issueNormalW, issueHighW] queryW 1 10).totalIssues ≤
      (getIssuesAgg [issueNormalW, issueHighW] queryW 1 10).totalPages * 10 ∧
    (getIssuesAgg [issueNormalW, issueHighW] queryW 1 10).totalPages =
      (getIssuesAgg [issueNormalW, issueHighW] queryW 1 10).totalIssues ⌈/⌉ 10 ∧
    (getIssuesAgg [issueNormalW, issueHighW] queryW 1 10).issues =
      ((List.insertionSort aggLE
        ([issueNormalW, issueHighW].filter (matchesQuery queryW))).drop 0).take 10 := by
  refine ⟨?_, ?_, ?_⟩
  · exact (C2_listing_pagination [issueNormalW, issueHighW] queryW 1 10 (by decide)).2.2.2.1
  · exact (C2_listing_pagination [issueNormalW, issueHighW] queryW 1 10 (by decide)).2.2.2.2.2
  · exact (C2_listing_pagination [issueNormalW, issueHighW] queryW 1 10 (by decide)).2.1

/-- C4: the two implementations of the public listing are NOT equivalent.  On
a database with one `high` and one `normal` issue (no filters, page 1), the
aggregation pipeline returns the boosted issue first (numeric key 3 > 2),
while the `find().sort({ priority: -1, createdAt: -1 })` variant compares the
priority *strings* descending, and `"normal" > "high"` lexicographically, so
it returns the `normal` issue first — contradicting the variant's own
`Boosted first` comment. -/
theorem C4_listing_variants_diverge :
    (getIssuesAgg [issueNormalW, issueHighW] queryW 1 10).issues =
      [issueHighW, issueNormalW] ∧
    (getIssuesFind [issueNormalW, issueHighW] queryW 1 10).issues =
      [issueNormalW, issueHighW] ∧
    (getIssuesAgg [issueNormalW, issueHighW] queryW 1 10).issues ≠
      (getIssuesFind [issueNormalW, issueHighW] queryW 1 10).issues := by
  refine ⟨by decide, by decide, by decide⟩

end Civix





